import Mathlib

/-!
Verification of the `limbus` pipeline scheduler (`limbus/core/pipeline.py`).

The scheduler state is embedded shallowly: Python's mutable `Pipeline`
object becomes an immutable record, and each method becomes a function
returning the updated record (and, for the hooks, the updated component).
Python integers are `Int`.  Log output emitted by `_PipelineState._logger`
is recorded in an `emitted` list so that "no re-log" claims are statable.
-/

namespace Limbus

/-- Modelled from the spec: the pipeline lifecycle states
(`limbus/core/states.py` is not among the provided sources).
`CREATED → INITIALIZING → RUNNING ⇄ PAUSED → {ENDED | FORCED_STOP | ERROR}`. -/
inductive PipelineState where
  | CREATED
  | INITIALIZING
  | RUNNING
  | PAUSED
  | ENDED
  | FORCED_STOP
  | ERROR
deriving DecidableEq

/-- Modelled from the spec: verbosity modes, with at least `DISABLED`,
a pipeline-level mode and a per-component mode
(`limbus/core/states.py` is not among the provided sources). -/
inductive VerboseMode where
  | DISABLED
  | PIPELINE
  | COMPONENT
deriving DecidableEq

/-- Modelled from the spec: the component execution states the scheduler
writes (`limbus/core/component.py` is not among the provided sources);
`RUNNING` stands for the component's own "doing work" states. -/
inductive ComponentState where
  | READY
  | PAUSED
  | RUNNING
  | FORCED_STOP
  | STOPPED_AT_ITER
deriving DecidableEq

/-- Modelled from the spec: the part of a `Component` the scheduler touches —
a completed-iteration `counter` (read only), a `stopping_iteration` the
component stores from `get_component_stopping_iteration`, and an execution
`state` written through `set_state`
(`limbus/core/component.py` is not among the provided sources). -/
structure Component where
  counter : Int
  stopping_iteration : Int
  state : ComponentState
deriving DecidableEq

/-- `Component.set_state`: the scheduler writes a component's state. -/
def Component.set_state (c : Component) (s : ComponentState) : Component :=
  { c with state := s }

/-- `_PipelineState`: holds the pipeline state and the verbose mode; the
lines emitted by `_logger` are accumulated in `emitted`. -/
structure StateTracker where
  state : PipelineState
  verbose : VerboseMode
  emitted : List (PipelineState × Option String)
deriving DecidableEq

/-- `_PipelineState._logger`: log the message with the pipeline state when
verbosity is enabled. -/
def StateTracker.logger (t : StateTracker) (s : PipelineState)
    (msg : Option String) : StateTracker :=
  if t.verbose ≠ VerboseMode.DISABLED then
    { t with emitted := t.emitted ++ [(s, msg)] }
  else t

/-- `_PipelineState.__call__`: set the state of the pipeline, then log it. -/
def StateTracker.call (t : StateTracker) (s : StateTracker → PipelineState)
    (msg : Option String) : StateTracker :=
  let t1 := { t with state := s t }
  t1.logger t1.state msg

/-- `_PipelineState.__call__` with a constant new state (the only way the
source uses it). -/
def StateTracker.callConst (t : StateTracker) (s : PipelineState)
    (msg : Option String) : StateTracker :=
  t.call (fun _ => s) msg

/-- `Pipeline`: the scheduler core of `limbus/core/pipeline.py`. -/
structure Pipeline where
  nodes : List Component
  resume_event : Bool
  stop_event : Bool
  tracker : StateTracker
  counter : Int
  min_number_of_iters_to_run : Int
deriving DecidableEq

/-- `Pipeline.state` property: the current pipeline state. -/
def Pipeline.state (p : Pipeline) : PipelineState :=
  p.tracker.state

/-- `Pipeline.get_component_stopping_iteration`: the iteration where the
component's loop will be stopped; `0` means it will run forever. -/
def Pipeline.get_component_stopping_iteration (p : Pipeline) (c : Component) : Int :=
  if p.min_number_of_iters_to_run > 0 then
    c.counter + p.min_number_of_iters_to_run
  else 0

/-- `Pipeline.after_component_hook`: run after the execution of each
component; returns the updated scheduler and component. -/
def Pipeline.after_component_hook (p : Pipeline) (c : Component) :
    Pipeline × Component :=
  if p.stop_event then
    (p, c.set_state ComponentState.FORCED_STOP)
  else
    let p1 := { p with counter := max p.counter c.counter }
    if p1.min_number_of_iters_to_run ≠ 0 ∧ c.counter ≥ c.stopping_iteration then
      (p1, c.set_state ComponentState.STOPPED_AT_ITER)
    else
      (p1, c)

/-- `Pipeline.pause`: close the resume gate and transition to `PAUSED`,
only when the gate is currently open. -/
def Pipeline.pause (p : Pipeline) : Pipeline :=
  if p.resume_event then
    { p with tracker := p.tracker.callConst PipelineState.PAUSED none
           , resume_event := false }
  else p

/-- `Pipeline.resume`: open the resume gate and transition to `RUNNING`,
only when the gate is currently closed. -/
def Pipeline.resume (p : Pipeline) : Pipeline :=
  if ¬ p.resume_event then
    { p with tracker := p.tracker.callConst PipelineState.RUNNING none
           , resume_event := true }
  else p

/-- `Pipeline.stop`: resume (a paused pipeline is blocked), set the stop
event, then transition to `FORCED_STOP`. -/
def Pipeline.stop (p : Pipeline) : Pipeline :=
  let p1 := p.resume
  let p2 := { p1 with stop_event := true }
  { p2 with tracker := p2.tracker.callConst PipelineState.FORCED_STOP none }

/-- Tail of `Pipeline.async_run` after `await start()`: return the state
unchanged when it is `FORCED_STOP` or `ERROR`, otherwise transition to
`ENDED` and return the new state. -/
def Pipeline.run_end (p : Pipeline) : Pipeline × PipelineState :=
  if p.state = PipelineState.FORCED_STOP ∨ p.state = PipelineState.ERROR then
    (p, p.state)
  else
    let p1 := { p with tracker := p.tracker.callConst PipelineState.ENDED none }
    (p1, p1.state)

/-- `Pipeline.async_run`: record `iters`, clear the stop event, transition
to `INITIALIZING`, then `start()`: build the tasks, resume, fail with
`ERROR` when no components were added, otherwise await the tasks.  The
combined effect of awaiting the launched tasks (both `gather` waves, which
interleave hook calls) is abstracted as `gatherEffect` on the scheduler
state; with zero nodes it is never reached. -/
def Pipeline.async_run (p : Pipeline) (gatherEffect : Pipeline → Pipeline)
    (iters : Int) : Pipeline × PipelineState :=
  let p1 := { p with min_number_of_iters_to_run := iters }
  let p2 := { p1 with stop_event := false }
  let p3 := { p2 with tracker := p2.tracker.callConst PipelineState.INITIALIZING none }
  let p4 := p3.resume
  if p4.nodes.length = 0 then
    let p5 := { p4 with tracker :=
      p4.tracker.callConst PipelineState.ERROR (some "No components added to the pipeline") }
    p5.run_end
  else
    (gatherEffect p4).run_end

/-- `Pipeline.run`: blocking wrapper over `async_run`; returns the pipeline
state after the coroutine finishes. -/
def Pipeline.run (p : Pipeline) (gatherEffect : Pipeline → Pipeline)
    (iters : Int) : Pipeline × PipelineState :=
  let r := p.async_run gatherEffect iters
  (r.1, r.1.state)

/-- The scheduler-state mutations that can happen during a run: the operator
calls `pause`, `resume` or `stop`, and a component's loop calls the after
hook.  (`before_component_hook` does not mutate the scheduler.) -/
inductive SchedOp where
  | pauseOp
  | resumeOp
  | stopOp
  | afterHookOp (c : Component)

/-- Apply one scheduler operation to the pipeline state. -/
def applyOp (p : Pipeline) : SchedOp → Pipeline
  | SchedOp.pauseOp => p.pause
  | SchedOp.resumeOp => p.resume
  | SchedOp.stopOp => p.stop
  | SchedOp.afterHookOp c => (p.after_component_hook c).1

/-- Apply a sequence of scheduler operations in order. -/
def applyOps (p : Pipeline) : List SchedOp → Pipeline
  | [] => p
  | o :: os => applyOps (applyOp p o) os

/-- A fresh tracker in state `CREATED` with verbosity disabled. -/
def tracker0 : StateTracker :=
  { state := PipelineState.CREATED, verbose := VerboseMode.DISABLED, emitted := [] }

/-- A component that has completed 2 iterations. -/
def comp2 : Component :=
  { counter := 2, stopping_iteration := 0, state := ComponentState.RUNNING }

/-- A component whose counter has reached its stopping iteration. -/
def comp5 : Component :=
  { counter := 5, stopping_iteration := 5, state := ComponentState.RUNNING }

/-- A freshly created pipeline with no components. -/
def pempty : Pipeline :=
  { nodes := [], resume_event := false, stop_event := false
  , tracker := tracker0, counter := 0, min_number_of_iters_to_run := 0 }

/-- A pipeline holding one component. -/
def pone : Pipeline :=
  { pempty with nodes := [comp2] }

/-- A paused pipeline (resume gate closed, state `PAUSED`). -/
def ppaused : Pipeline :=
  { pempty with tracker := { tracker0 with state := PipelineState.PAUSED } }

/-- A bounded-run pipeline (`min_number_of_iters_to_run = 3`), running. -/
def pbounded : Pipeline :=
  { pempty with min_number_of_iters_to_run := 3, resume_event := true
              , tracker := { tracker0 with state := PipelineState.RUNNING } }

/-- A pipeline whose stop event is set. -/
def pstopping : Pipeline :=
  { pbounded with stop_event := true }

/-- A pipeline recorded with a negative iterations argument. -/
def pnegative : Pipeline :=
  { pbounded with min_number_of_iters_to_run := -1 }

/-- A pipeline in state `FORCED_STOP`, as left after awaiting the tasks. -/
def pforced : Pipeline :=
  { pempty with tracker := { tracker0 with state := PipelineState.FORCED_STOP } }

/-- An unbounded-run pipeline (`min_number_of_iters_to_run = 0`), running. -/
def punbounded : Pipeline :=
  { pbounded with min_number_of_iters_to_run := 0 }

/-- A paused pipeline with verbose logging enabled. -/
def pverbose : Pipeline :=
  { pempty with tracker := { tracker0 with state := PipelineState.PAUSED
                                         , verbose := VerboseMode.PIPELINE } }

theorem callConst_state (t : StateTracker) (s : PipelineState) (msg : Option String) :
    (t.callConst s msg).state = s := by
  unfold StateTracker.callConst StateTracker.call StateTracker.logger
  dsimp only
  split <;> rfl

theorem callConst_verbose (t : StateTracker) (s : PipelineState) (msg : Option String) :
    (t.callConst s msg).verbose = t.verbose := by
  unfold StateTracker.callConst StateTracker.call StateTracker.logger
  dsimp only
  split <;> rfl

theorem resume_nodes (p : Pipeline) : p.resume.nodes = p.nodes := by
  unfold Pipeline.resume
  split <;> rfl

theorem resume_resume_event (p : Pipeline) : p.resume.resume_event = true := by
  unfold Pipeline.resume
  split
  · rfl
  · next h => simpa using h

theorem resume_stop_event (p : Pipeline) : p.resume.stop_event = p.stop_event := by
  unfold Pipeline.resume
  split <;> rfl

theorem resume_counter (p : Pipeline) : p.resume.counter = p.counter := by
  unfold Pipeline.resume
  split <;> rfl

theorem pause_counter (p : Pipeline) : p.pause.counter = p.counter := by
  unfold Pipeline.pause
  split <;> rfl

theorem stop_counter (p : Pipeline) : p.stop.counter = p.counter := by
  unfold Pipeline.stop
  simpa using resume_counter p

theorem after_hook_counter_le (p : Pipeline) (c : Component) :
    p.counter ≤ (p.after_component_hook c).1.counter := by
  unfold Pipeline.after_component_hook
  split
  · exact le_refl _
  · dsimp only
    split
    · exact le_max_left _ _
    · exact le_max_left _ _

theorem applyOp_counter_le (p : Pipeline) (o : SchedOp) :
    p.counter ≤ (applyOp p o).counter := by
  cases o with
  | pauseOp => exact (pause_counter p).ge
  | resumeOp => exact (resume_counter p).ge
  | stopOp => exact (stop_counter p).ge
  | afterHookOp c => exact after_hook_counter_le p c

theorem run_end_error (p : Pipeline) (h : p.state = PipelineState.ERROR) :
    p.run_end = (p, p.state) := by
  unfold Pipeline.run_end
  rw [if_pos (Or.inr h)]

/-- C1: running the pipeline with zero registered components leaves the
pipeline in the `ERROR` state, and both `run` and `async_run` return
`ERROR` (a returned state, not an exception), for every iterations
argument and for whatever effect awaiting the tasks would have had. -/
theorem empty_pipeline_run_error (p : Pipeline) (g : Pipeline → Pipeline)
    (iters : Int) (h : p.nodes = []) :
    (p.async_run g iters).2 = PipelineState.ERROR ∧
    (p.async_run g iters).1.state = PipelineState.ERROR ∧
    (p.run g iters).2 = PipelineState.ERROR := by
  have hrun : ∀ g2, (p.async_run g2 iters).2 = PipelineState.ERROR ∧
      (p.async_run g2 iters).1.state = PipelineState.ERROR := by
    intro g2
    unfold Pipeline.async_run
    dsimp only
    split
    · rw [run_end_error]
      · exact ⟨callConst_state _ _ _, callConst_state _ _ _⟩
      · exact callConst_state _ _ _
    · next hlen =>
      exact absurd (by rw [resume_nodes]; simp [h]) hlen
  refine ⟨(hrun g).1, (hrun g).2, ?_⟩
  unfold Pipeline.run
  exact (hrun g).2

/-- C1 witness: a concrete empty pipeline run returns `ERROR`. -/
theorem empty_pipeline_run_error_witness :
    pempty.nodes = [] ∧
    (pempty.async_run id 0).2 = PipelineState.ERROR ∧
    (pempty.async_run id 0).1.state = PipelineState.ERROR ∧
    (pempty.run id 0).2 = PipelineState.ERROR :=
  ⟨rfl, empty_pipeline_run_error pempty id 0 rfl⟩

/-- C2: `stop()` first resumes, then sets the stop flag, then transitions
to `FORCED_STOP`; afterwards the resume gate is open, the stop flag is set
and the pipeline state is `FORCED_STOP`, from every starting state; a
paused verbose pipeline logs the `RUNNING` transition before the
`FORCED_STOP` one. -/
theorem stop_resumes_then_stops (p : Pipeline) :
    p.stop = { { p.resume with stop_event := true } with
               tracker := ({ p.resume with stop_event := true }).tracker.callConst
                 PipelineState.FORCED_STOP none } ∧
    p.stop.resume_event = true ∧
    p.stop.stop_event = true ∧
    p.stop.state = PipelineState.FORCED_STOP ∧
    (p.resume_event = false → p.tracker.verbose ≠ VerboseMode.DISABLED →
      p.stop.tracker.emitted = p.tracker.emitted ++
        [(PipelineState.RUNNING, none), (PipelineState.FORCED_STOP, none)]) := by
  refine ⟨rfl, ?_, rfl, ?_, ?_⟩
  · show ({ p.resume with stop_event := true }).resume_event = true
    simpa using resume_resume_event p
  · show (({ p.resume with stop_event := true }).tracker.callConst
      PipelineState.FORCED_STOP none).state = PipelineState.FORCED_STOP
    exact callConst_state _ _ _
  · intro hre hv
    show (({ p.resume with stop_event := true }).tracker.callConst
      PipelineState.FORCED_STOP none).emitted = _
    unfold Pipeline.resume
    rw [if_pos (by simp [hre])]
    simp [StateTracker.callConst, StateTracker.call, StateTracker.logger, hv]

/-- C2 witness: stopping a concrete paused verbose pipeline. -/
theorem stop_resumes_then_stops_witness :
    pverbose.resume_event = false ∧
    pverbose.tracker.verbose ≠ VerboseMode.DISABLED ∧
    pverbose.stop.tracker.emitted = pverbose.tracker.emitted ++
      [(PipelineState.RUNNING, none), (PipelineState.FORCED_STOP, none)] :=
  ⟨rfl, by decide, (stop_resumes_then_stops pverbose).2.2.2.2 rfl (by decide)⟩

/-- C3: `get_component_stopping_iteration` returns
`component.counter + min_number_of_iters_to_run` when the recorded
iterations are positive, and `0` (unbounded) when they are `0`, for every
component. -/
theorem stopping_iteration_formula (p : Pipeline) (c : Component) :
    (0 < p.min_number_of_iters_to_run →
      p.get_component_stopping_iteration c = c.counter + p.min_number_of_iters_to_run) ∧
    (p.min_number_of_iters_to_run = 0 →
      p.get_component_stopping_iteration c = 0) := by
  constructor
  · intro h
    unfold Pipeline.get_component_stopping_iteration
    rw [if_pos h]
  · intro h
    unfold Pipeline.get_component_stopping_iteration
    rw [if_neg (by omega)]

/-- C3 witness: both branches at concrete inputs. -/
theorem stopping_iteration_formula_witness :
    pbounded.get_component_stopping_iteration comp2 =
      comp2.counter + pbounded.min_number_of_iters_to_run ∧
    punbounded.get_component_stopping_iteration comp2 = 0 :=
  ⟨(stopping_iteration_formula pbounded comp2).1 (by decide),
   (stopping_iteration_formula punbounded comp2).2 (by decide)⟩

/-- C4: when the stop flag is not set, `after_component_hook` updates the
global counter to `max(counter, component.counter)`, marks the component
`STOPPED_AT_ITER` exactly when the recorded iterations are nonzero and the
component's counter has reached its stopping iteration, and otherwise
leaves the component untouched. -/
theorem after_hook_no_stop (p : Pipeline) (c : Component)
    (h : p.stop_event = false) :
    (p.after_component_hook c).1.counter = max p.counter c.counter ∧
    (p.min_number_of_iters_to_run ≠ 0 ∧ c.counter ≥ c.stopping_iteration →
      (p.after_component_hook c).2 = c.set_state ComponentState.STOPPED_AT_ITER) ∧
    (¬ (p.min_number_of_iters_to_run ≠ 0 ∧ c.counter ≥ c.stopping_iteration) →
      (p.after_component_hook c).2 = c) := by
  unfold Pipeline.after_component_hook
  rw [if_neg (by simp [h])]
  dsimp only
  refine ⟨?_, ?_, ?_⟩
  · split <;> rfl
  · intro hc
    rw [if_pos hc]
  · intro hc
    rw [if_neg hc]

/-- C4 witness: a bounded pipeline marks a component that reached its
stopping iteration, and an unbounded one leaves it untouched. -/
theorem after_hook_no_stop_witness :
    pbounded.stop_event = false ∧
    (pbounded.after_component_hook comp5).1.counter =
      max pbounded.counter comp5.counter ∧
    (pbounded.after_component_hook comp5).2 =
      comp5.set_state ComponentState.STOPPED_AT_ITER ∧
    (punbounded.after_component_hook comp5).2 = comp5 :=
  let h1 := after_hook_no_stop pbounded comp5 rfl
  let h2 := after_hook_no_stop punbounded comp5 rfl
  ⟨rfl, h1.1, h1.2.1 ⟨by decide, by decide⟩, h2.2.2 (by decide)⟩

/-- C5: if the stop flag is set, `after_component_hook` sets the component
state to `FORCED_STOP`, never `STOPPED_AT_ITER`, overriding the iteration
bound. -/
theorem after_hook_stop_override (p : Pipeline) (c : Component)
    (h : p.stop_event = true) :
    (p.after_component_hook c).2.state = ComponentState.FORCED_STOP ∧
    (p.after_component_hook c).2.state ≠ ComponentState.STOPPED_AT_ITER := by
  unfold Pipeline.after_component_hook
  rw [if_pos h]
  exact ⟨rfl, by simp [Component.set_state]⟩

/-- C5 witness: a component that reached its stopping iteration is still
forced to stop when the stop flag is set. -/
theorem after_hook_stop_override_witness :
    pstopping.stop_event = true ∧
    (pstopping.after_component_hook comp5).2.state = ComponentState.FORCED_STOP ∧
    (pstopping.after_component_hook comp5).2.state ≠ ComponentState.STOPPED_AT_ITER :=
  ⟨rfl, after_hook_stop_override pstopping comp5 rfl⟩

/-- C6: the global counter is monotonically non-decreasing: the only update
replaces it with `max(counter, component.counter)`, and any sequence of
scheduler operations leaves it at least as large as before. -/
theorem counter_monotone (p : Pipeline) (c : Component) (o : SchedOp)
    (ops : List SchedOp) :
    (p.stop_event = false →
      (p.after_component_hook c).1.counter = max p.counter c.counter) ∧
    p.counter ≤ (applyOp p o).counter ∧
    p.counter ≤ (applyOps p ops).counter := by
  refine ⟨?_, applyOp_counter_le p o, ?_⟩
  · intro h
    unfold Pipeline.after_component_hook
    rw [if_neg (by simp [h])]
    dsimp only
    split <;> rfl
  · induction ops generalizing p with
    | nil => exact le_refl _
    | cons o2 os ih => exact le_trans (applyOp_counter_le p o2) (ih _)

/-- C6 witness: concrete counter updates are non-decreasing. -/
theorem counter_monotone_witness :
    pbounded.stop_event = false ∧
    (pbounded.after_component_hook comp2).1.counter =
      max pbounded.counter comp2.counter ∧
    pbounded.counter ≤ (applyOp pbounded SchedOp.stopOp).counter ∧
    pbounded.counter ≤
      (applyOps pbounded [SchedOp.pauseOp, SchedOp.afterHookOp comp2]).counter :=
  let h := counter_monotone pbounded comp2 SchedOp.stopOp
    [SchedOp.pauseOp, SchedOp.afterHookOp comp2]
  ⟨rfl, h.1 rfl, h.2.1, h.2.2⟩

/-- C7: `pause` and `resume` are idempotent, and `pause` on an
already-closed gate is a strict no-op (no transition, no log). -/
theorem pause_resume_idempotent (p : Pipeline) :
    p.pause.pause = p.pause ∧ p.resume.resume = p.resume ∧
    (p.resume_event = false → p.pause = p) := by
  have hpf : ∀ q : Pipeline, q.resume_event = false → q.pause = q := by
    intro q hq
    unfold Pipeline.pause
    rw [if_neg (by simp [hq])]
  have hrt : ∀ q : Pipeline, q.resume_event = true → q.resume = q := by
    intro q hq
    unfold Pipeline.resume
    rw [if_neg (by simp [hq])]
  refine ⟨?_, ?_, hpf p⟩
  · by_cases hb : p.resume_event = true
    · apply hpf
      unfold Pipeline.pause
      rw [if_pos hb]
    · have h2 := hpf p (by simpa using hb)
      rw [h2]
      exact h2
  · by_cases hb : p.resume_event = true
    · have h2 := hrt p hb
      rw [h2]
      exact h2
    · apply hrt
      unfold Pipeline.resume
      rw [if_pos (by simpa using hb)]

/-- C7 witness: pausing an already-paused concrete pipeline changes
nothing at all. -/
theorem pause_resume_idempotent_witness :
    ppaused.resume_event = false ∧ ppaused.pause = ppaused :=
  ⟨rfl, (pause_resume_idempotent ppaused).2.2 rfl⟩

/-- C8: once the awaited tasks leave the pipeline in state `q`, `async_run`
returns `q` unchanged with its state when that state is `FORCED_STOP` or
`ERROR`, and otherwise transitions the pipeline to `ENDED` and returns
`ENDED`. -/
theorem async_run_final_state (p : Pipeline) (q : Pipeline) (iters : Int)
    (h : p.nodes ≠ []) :
    ((q.state = PipelineState.FORCED_STOP ∨ q.state = PipelineState.ERROR) →
      p.async_run (fun _ => q) iters = (q, q.state)) ∧
    (q.state ≠ PipelineState.FORCED_STOP ∧ q.state ≠ PipelineState.ERROR →
      (p.async_run (fun _ => q) iters).1 =
        { q with tracker := q.tracker.callConst PipelineState.ENDED none } ∧
      (p.async_run (fun _ => q) iters).1.state = PipelineState.ENDED ∧
      (p.async_run (fun _ => q) iters).2 = PipelineState.ENDED) := by
  have key : p.async_run (fun _ => q) iters = q.run_end := by
    unfold Pipeline.async_run
    dsimp only
    split
    · next hlen =>
      rw [resume_nodes] at hlen
      simp only [List.length_eq_zero] at hlen
      exact absurd hlen h
    · rfl
  rw [key]
  unfold Pipeline.run_end
  constructor
  · intro hq
    rw [if_pos hq]
  · intro hq
    rw [if_neg (by tauto)]
    exact ⟨rfl, callConst_state _ _ _, callConst_state _ _ _⟩

/-- C8 witness: a run whose tasks end in `FORCED_STOP` returns that state
unchanged. -/
theorem async_run_final_state_witness :
    pone.nodes ≠ [] ∧
    pforced.state = PipelineState.FORCED_STOP ∧
    pone.async_run (fun _ => pforced) 0 = (pforced, pforced.state) :=
  ⟨by decide, rfl,
   (async_run_final_state pone pforced 0 (by decide)).1 (Or.inl rfl)⟩

/-- C9: if the stop flag is set, `after_component_hook` leaves the whole
scheduler state (in particular the counter) unchanged; its only mutation
is writing `FORCED_STOP` into that component's state. -/
theorem after_hook_stop_frame (p : Pipeline) (c : Component)
    (h : p.stop_event = true) :
    (p.after_component_hook c).1 = p ∧
    (p.after_component_hook c).1.counter = p.counter ∧
    (p.after_component_hook c).2 = { c with state := ComponentState.FORCED_STOP } := by
  unfold Pipeline.after_component_hook
  rw [if_pos h]
  exact ⟨rfl, rfl, rfl⟩

/-- C9 witness: the frame condition at a concrete stopped pipeline. -/
theorem after_hook_stop_frame_witness :
    pstopping.stop_event = true ∧
    (pstopping.after_component_hook comp2).1 = pstopping ∧
    (pstopping.after_component_hook comp2).2 =
      { comp2 with state := ComponentState.FORCED_STOP } :=
  let h := after_hook_stop_frame pstopping comp2 rfl
  ⟨rfl, h.1, h.2.2⟩

/-- C10: when the recorded iterations argument is negative,
`get_component_stopping_iteration` returns the unbounded sentinel `0`,
yet `after_component_hook` still treats the run as bounded (its check is
`min_number_of_iters_to_run ≠ 0`), so a component whose stored stopping
iteration is that sentinel is marked `STOPPED_AT_ITER` as soon as its
counter is non-negative. -/
theorem negative_iters_bounded (p : Pipeline) (c : Component)
    (h : p.min_number_of_iters_to_run < 0) :
    p.get_component_stopping_iteration c = 0 ∧
    (p.stop_event = false →
      c.stopping_iteration = p.get_component_stopping_iteration c →
      0 ≤ c.counter →
      (p.after_component_hook c).2.state = ComponentState.STOPPED_AT_ITER) := by
  have hzero : p.get_component_stopping_iteration c = 0 := by
    unfold Pipeline.get_component_stopping_iteration
    rw [if_neg (by omega)]
  refine ⟨hzero, ?_⟩
  intro hs hstop hc
  have h0 : c.stopping_iteration = 0 := hstop.trans hzero
  unfold Pipeline.after_component_hook
  rw [if_neg (by simp [hs])]
  dsimp only
  rw [if_pos ⟨by omega, by omega⟩]
  rfl

/-- C10 witness: a pipeline recorded with `iterations = -1` stops a
component at once. -/
theorem negative_iters_bounded_witness :
    pnegative.min_number_of_iters_to_run < 0 ∧
    pnegative.get_component_stopping_iteration comp2 = 0 ∧
    (pnegative.after_component_hook comp2).2.state = ComponentState.STOPPED_AT_ITER :=
  let h := negative_iters_bounded pnegative comp2 (by decide)
  ⟨by decide, h.1, h.2 rfl (by decide) (by decide)⟩

end Limbus
